import Mathlib

/-!
Verification development for the Image Filter Application (`src/app.py`).

The application is a Tkinter/Pillow GUI: session state is two in-memory
image handles (`original_image`, `processed_image`) plus a preview bitmap
(`display_image`); each button handler reads and mutates that state.  We give
a shallow embedding: images are pixel functions tagged with a Pillow mode,
the Pillow library calls used by the app are modelled as executable Lean
functions, handlers are explicit state transformers, and the possibility of
an unexpected library exception at a call site is modelled by a failure
oracle (`Env`) threaded through each handler.
-/

namespace ImageFilterApp

/-- Pillow image modes that can flow through this application:
`L` (single-band luminance), `P` (palette), `RGB` (three bands). -/
inductive Mode
  | L
  | P
  | RGB
deriving DecidableEq

/-- A pixel value.  For an `L`-mode image the single band value is stored in
all three components (the representation of a one-band image as a triple). -/
structure RGBv where
  r : Nat
  g : Nat
  b : Nat
deriving DecidableEq

/-- A decoded in-memory image: mode, dimensions, and pixel contents.
Pixel access is total; coordinates outside the image replicate whatever the
function returns there (only in-bounds values matter to the claims). -/
structure Img where
  mode : Mode
  width : Nat
  height : Nat
  px : Nat → Nat → RGBv

/-- Exceptions observable at the library-call boundary:
`wrongMode` is Pillow's `ValueError` for filtering a palette image;
`unexpected` stands for any other library exception. -/
inductive PilErr
  | wrongMode
  | unexpected
deriving DecidableEq

/-- ITU-R 601-2 luma used by Pillow's `convert("L")`:
`L = (R*19595 + G*38470 + B*7471 + 0x8000) >> 16`. -/
def luma (p : RGBv) : Nat :=
  (p.r * 19595 + p.g * 38470 + p.b * 7471 + 32768) / 65536

/-- `img.convert("L")`: single-band luminance image (band stored as an
equal triple). -/
def convertL (i : Img) : Img :=
  ⟨.L, i.width, i.height, fun x y =>
    let l := luma (i.px x y)
    ⟨l, l, l⟩⟩

/-- `img.convert("RGB")`: re-tag as a three-band image.  From `L` the band
is replicated into all three channels (already the stored representation);
from `P` the palette is resolved (pixels already store resolved colors). -/
def convertRGB (i : Img) : Img :=
  ⟨.RGB, i.width, i.height, i.px⟩

/-- `if img.mode != 'RGB': img = img.convert('RGB')` from `apply_cartoon`. -/
def ensureRGB (i : Img) : Img :=
  if i.mode ≠ .RGB then convertRGB i else i

/-- Clamp a signed channel value into the byte range, as Pillow's filter
kernels and blending do. -/
def clampInt (z : Int) : Nat :=
  (max 0 (min z 255)).toNat

/-- A Pillow built-in convolution filter: side length of the square kernel,
divisor ("scale"), offset, and the flat row-major weight list, exactly as in
`PIL.ImageFilter`'s `filterargs` tuples. -/
structure Kernel where
  size : Nat
  divisor : ℚ
  offset : Int
  weights : List Int

/-- `PIL.ImageFilter.BLUR`: 5×5 kernel, scale 16. -/
def BLUR : Kernel :=
  ⟨5, 16, 0,
   [1, 1, 1, 1, 1,
    1, 0, 0, 0, 1,
    1, 0, 0, 0, 1,
    1, 0, 0, 0, 1,
    1, 1, 1, 1, 1]⟩

/-- `PIL.ImageFilter.SHARPEN`: 3×3 kernel, scale 16. -/
def SHARPEN : Kernel :=
  ⟨3, 16, 0,
   [-2, -2, -2,
    -2, 32, -2,
    -2, -2, -2]⟩

/-- `PIL.ImageFilter.EDGE_ENHANCE_MORE`: 3×3 kernel, scale 1. -/
def EDGE_ENHANCE_MORE : Kernel :=
  ⟨3, 1, 0,
   [-1, -1, -1,
    -1, 9, -1,
    -1, -1, -1]⟩

/-- `PIL.ImageFilter.FIND_EDGES`: 3×3 kernel, scale 1. -/
def FIND_EDGES : Kernel :=
  ⟨3, 1, 0,
   [-1, -1, -1,
    -1, 8, -1,
    -1, -1, -1]⟩

/-- Convolution value of one band at an interior pixel: weighted sum over the
kernel window divided by the kernel's divisor, offset added, clamped to a
byte.  (Pillow computes this in C floating point; the rounding mode is a
library internal no claim depends on.) -/
def convVal (k : Kernel) (i : Img) (sel : RGBv → Nat) (x y : Nat) : Nat :=
  let r := k.size / 2
  let total : ℚ := (List.range (k.size * k.size)).foldl
    (fun acc idx =>
      acc + (k.weights.getD idx 0 : ℚ) *
        (sel (i.px (x - r + idx % k.size) (y - r + idx / k.size)) : ℚ)) 0
  clampInt ⌊total / k.divisor + (k.offset : ℚ)⌋

/-- `img.filter(kernel)` pixel semantics: pixels within the kernel radius of
the border are copied from the input (as Pillow does); interior pixels get
the convolution value.  An `L` image is filtered on its single band; a
three-band image is filtered band by band.  Dimensions are unchanged. -/
def filterApply (k : Kernel) (i : Img) : Img :=
  let r := k.size / 2
  match i.mode with
  | .L =>
      ⟨.L, i.width, i.height, fun x y =>
        if x < r ∨ y < r ∨ i.width ≤ x + r ∨ i.height ≤ y + r then i.px x y
        else
          let v := convVal k i (fun p => p.r) x y
          ⟨v, v, v⟩⟩
  | m =>
      ⟨m, i.width, i.height, fun x y =>
        if x < r ∨ y < r ∨ i.width ≤ x + r ∨ i.height ≤ y + r then i.px x y
        else ⟨convVal k i (fun p => p.r) x y,
              convVal k i (fun p => p.g) x y,
              convVal k i (fun p => p.b) x y⟩⟩

/-- `Image.filter` call boundary: Pillow raises `ValueError` when asked to
filter a palette (`P`-mode) image, otherwise returns the filtered image. -/
def pilFilter (k : Kernel) (i : Img) : Except PilErr Img :=
  if i.mode = .P then .error .wrongMode else .ok (filterApply k i)

/-- Executable stand-in for Pillow's `img.quantize(colors=64)`.  The
median-cut palette construction is internal to the external imaging library
(a black-box collaborator per the spec); we model it as a deterministic
posterization onto a fixed 64-color grid (4 levels per channel).  What the
application relies on is preserved faithfully: the result is a palette
(`P`-mode) image of identical dimensions whose pixels are a function of the
input pixels. -/
def quantize64 (i : Img) : Img :=
  ⟨.P, i.width, i.height, fun x y =>
    let p := i.px x y
    ⟨p.r / 64 * 64 + 32, p.g / 64 * 64 + 32, p.b / 64 * 64 + 32⟩⟩

/-- One channel of `ImageEnhance.Color(img).enhance(1.2)`: Pillow blends the
grayscale degenerate with the image with factor 1.2, i.e. extrapolates
`g + 1.2*(c - g)` and clamps (float rounding is a library internal). -/
def blend12 (g c : Nat) : Nat :=
  clampInt ⌊(g : ℚ) + 6 / 5 * ((c : ℚ) - (g : ℚ))⌋

/-- `ImageEnhance.Color(img).enhance(1.2)`: per-pixel saturation boost by
factor 1.2 around the pixel's luma. -/
def enhance12 (i : Img) : Img :=
  ⟨i.mode, i.width, i.height, fun x y =>
    let p := i.px x y
    let g := luma p
    ⟨blend12 g p.r, blend12 g p.g, blend12 g p.b⟩⟩

/-- Transform computed by `apply_black_white`:
`original.convert("L").convert("RGB")`. -/
def bw_result (o : Img) : Img :=
  convertRGB (convertL o)

/-- Transform computed by `apply_edge_detection` when the filter call
succeeds: grayscale, `FIND_EDGES`, back to RGB. -/
def edge_result (o : Img) : Img :=
  convertRGB (filterApply FIND_EDGES (convertL o))

/-- The body of `apply_cartoon`'s try block up to the assignment: copy,
force RGB if needed, quantize to 64 colors, back to RGB, edge-enhance
(a fallible `Image.filter` call), saturation boost by 1.2. -/
def cartoonT (o : Img) : Except PilErr Img :=
  let img := o
  let img := ensureRGB img
  let img := convertRGB (quantize64 img)
  match pilFilter EDGE_ENHANCE_MORE img with
  | .error e => .error e
  | .ok j => .ok (enhance12 j)

/-- The body of `apply_edge_detection`'s try block up to the assignment:
grayscale, then the fallible `FIND_EDGES` filter call, then RGB. -/
def edgeT (o : Img) : Except PilErr Img :=
  let gray := convertL o
  match pilFilter FIND_EDGES gray with
  | .error e => .error e
  | .ok edges => .ok (convertRGB edges)

/-- The five filter buttons of the application. -/
inductive FilterKind
  | bw
  | blur
  | sharpen
  | cartoon
  | edge
deriving DecidableEq

/-- The transform each filter handler computes from the Original Image
(the right-hand side of its `self.processed_image = ...` assignment). -/
def filterTransform : FilterKind → Img → Except PilErr Img
  | .bw, o => .ok (bw_result o)
  | .blur, o => pilFilter BLUR o
  | .sharpen, o => pilFilter SHARPEN o
  | .cartoon, o => cartoonT o
  | .edge, o => edgeT o

/-- Failure oracle for one library call: either the call returns its normal
result or an unexpected library exception is raised. -/
def orFail {α : Type} (fail : Bool) (r : Except PilErr α) : Except PilErr α :=
  if fail then .error .unexpected else r

/-- Status-line contents (`self.status_label`). -/
inductive Status
  | idle
  | loaded
  | filtered (f : FilterKind)
  | resetDone
  | saved
deriving DecidableEq

/-- How a handler invocation ends: normally, with a modal error dialog
(`messagebox.showerror`), warning (`showwarning`), info (`showinfo`), or by
letting an exception escape the handler (no surrounding try block). -/
inductive HOutcome
  | ok
  | errDialog
  | warnDialog
  | infoDialog
  | uncaught
deriving DecidableEq

/-- Per-invocation environment: which library calls raise an unexpected
exception (transform / preview rendering / encoder), and the canvas
dimensions reported by `winfo_width` / `winfo_height`. -/
structure Env where
  transformFails : Bool
  displayFails : Bool
  saveFails : Bool
  cw : Nat
  ch : Nat

/-- The transient preview bitmap: the dimensions the renderer resized to,
and the image it was rendered from. -/
structure Preview where
  w : Int
  h : Int
  src : Img

/-- The application's session state: the two image handles, the preview,
the widget enabled flags, and the status line. -/
structure AppState where
  original : Option Img
  processed : Option Img
  displayed : Option Preview
  saveEnabled : Bool
  resetEnabled : Bool
  filtersEnabled : Bool
  uploadEnabled : Bool
  status : Status

/-- `if canvas_width <= 1: canvas_width = 800`. -/
def effCanvasW (cw : Nat) : Nat :=
  if cw ≤ 1 then 800 else cw

/-- `if canvas_height <= 1: canvas_height = 500`. -/
def effCanvasH (ch : Nat) : Nat :=
  if ch ≤ 1 then 500 else ch

/-- `scale_w = (canvas_width - 20) / img_width` (Python int subtraction,
then true division; exactly represented in ℚ). -/
def scale_w (canvasW imgW : Nat) : ℚ :=
  ((canvasW : ℚ) - 20) / (imgW : ℚ)

/-- `scale_h = (canvas_height - 20) / img_height`. -/
def scale_h (canvasH imgH : Nat) : ℚ :=
  ((canvasH : ℚ) - 20) / (imgH : ℚ)

/-- Python's `int()` conversion: truncation toward zero. -/
def pyInt (q : ℚ) : Int :=
  if 0 ≤ q then ⌊q⌋ else ⌈q⌉

/-- `scale = min(scale_w, scale_h, 1.0)` on the effective canvas size. -/
def display_scale (cw ch w h : Nat) : ℚ :=
  min (min (scale_w (effCanvasW cw) w) (scale_h (effCanvasH ch) h)) 1

/-- `new_width = int(img_width * scale)`. -/
def new_width (cw ch w h : Nat) : Int :=
  pyInt ((w : ℚ) * display_scale cw ch w h)

/-- `new_height = int(img_height * scale)`. -/
def new_height (cw ch w h : Nat) : Int :=
  pyInt ((h : ℚ) * display_scale cw ch w h)

/-- `display_image_on_canvas`: computes the preview dimensions from the
image and the canvas size and produces the transient preview bitmap.  It
never touches `original`/`processed`. -/
def display_image_on_canvas (img : Img) (env : Env) : Preview :=
  ⟨new_width env.cw env.ch img.width img.height,
   new_height env.cw env.ch img.width img.height, img⟩

/-- Outcome of the file dialog plus the two fallible decode statements of
`upload_image`.  Pillow's `Image.open` is lazy: it parses only the file
header and returns a new image handle; full pixel decoding happens when
`load()` runs, which the `copy()` on the next source line triggers.
`cancelled`: the dialog returned an empty path;
`openFailure`: `Image.open` itself raises (unrecognizable file), before
anything is assigned;
`copyFailure broken`: `Image.open` returns the handle `broken` (header
parsed: mode and size known) and it is assigned to `original_image`, but
pixel decoding then raises inside `original_image.copy()`, before
`processed_image` is touched;
`decoded img`: both statements succeed with the fully decoded `img`. -/
inductive UploadResult
  | cancelled
  | openFailure
  | copyFailure (broken : Img)
  | decoded (img : Img)

/-- `upload_image`: on a successful decode the handler stores the original,
copies it into `processed`, enables the filter and save buttons, renders
the preview and sets the status, in that order; the whole body sits in one
try block whose except clause shows a modal error dialog.  An `Image.open`
failure happens before any assignment; a `copy()`-time decode failure
happens after `original_image` was already reassigned. -/
def upload_image (s : AppState) (choice : UploadResult) (env : Env) :
    AppState × HOutcome :=
  match choice with
  | .cancelled => (s, .ok)
  | .openFailure => (s, .errDialog)
  | .copyFailure broken => ({ s with original := some broken }, .errDialog)
  | .decoded img =>
      let s1 : AppState :=
        { s with original := some img, processed := some img,
                 filtersEnabled := true, saveEnabled := true }
      if env.displayFails then (s1, .errDialog)
      else ({ s1 with displayed := some (display_image_on_canvas img env),
                      status := .loaded }, .ok)

/-- Shared shape of the five filter handlers: no-op without an original
image; otherwise compute the transform from the original, assign it to
`processed`, re-render the preview and set the status; any exception in the
try block is caught and reported by a modal error dialog. -/
def filter_handler (f : FilterKind) (s : AppState) (env : Env) :
    AppState × HOutcome :=
  match s.original with
  | none => (s, .ok)
  | some o =>
      match orFail env.transformFails (filterTransform f o) with
      | .error _ => (s, .errDialog)
      | .ok p =>
          let s1 : AppState := { s with processed := some p }
          if env.displayFails then (s1, .errDialog)
          else ({ s1 with displayed := some (display_image_on_canvas p env),
                          status := .filtered f }, .ok)

/-- `apply_black_white`. -/
def apply_black_white (s : AppState) (env : Env) : AppState × HOutcome :=
  filter_handler .bw s env

/-- `apply_blur`. -/
def apply_blur (s : AppState) (env : Env) : AppState × HOutcome :=
  filter_handler .blur s env

/-- `apply_sharpen`. -/
def apply_sharpen (s : AppState) (env : Env) : AppState × HOutcome :=
  filter_handler .sharpen s env

/-- `apply_cartoon`. -/
def apply_cartoon (s : AppState) (env : Env) : AppState × HOutcome :=
  filter_handler .cartoon s env

/-- `apply_edge_detection`. -/
def apply_edge_detection (s : AppState) (env : Env) : AppState × HOutcome :=
  filter_handler .edge s env

/-- `reset_image`: no-op without an original; otherwise `processed` becomes
a copy of the original and the original is re-rendered as the preview.
There is no try block here, so a rendering exception escapes uncaught. -/
def reset_image (s : AppState) (env : Env) : AppState × HOutcome :=
  match s.original with
  | none => (s, .ok)
  | some o =>
      let s1 : AppState := { s with processed := some o }
      if env.displayFails then (s1, .uncaught)
      else ({ s1 with displayed := some (display_image_on_canvas o env),
                      status := .resetDone }, .ok)

/-- `save_image`: warns when there is no processed image; otherwise prompts
for a path (`chosenPath = false` is a cancelled dialog) and encodes the
processed image, reporting encoder errors with a modal error dialog. -/
def save_image (s : AppState) (chosenPath : Bool) (env : Env) :
    AppState × HOutcome :=
  match s.processed with
  | none => (s, .warnDialog)
  | some _ =>
      if chosenPath then
        if env.saveFails then (s, .errDialog)
        else ({ s with status := .saved }, .infoDialog)
      else (s, .ok)

/-- One user action (button activation) dispatched by the event loop. -/
inductive Event
  | upload (choice : UploadResult)
  | filt (f : FilterKind)
  | reset
  | save (chosenPath : Bool)

/-- One step of the (single-threaded, run-to-completion) event loop. -/
def step (s : AppState) (ev : Event) (env : Env) : AppState × HOutcome :=
  match ev with
  | .upload choice => upload_image s choice env
  | .filt f => filter_handler f s env
  | .reset => reset_image s env
  | .save chosenPath => save_image s chosenPath env

/-- Events other than an upload whose decode fails at the `copy()` step —
the one step that reassigns `original_image` without refreshing
`processed_image`. -/
def NotCopyFailure : Event → Prop
  | .upload (.copyFailure _) => False
  | _ => True

/-- The state established by `__init__` and `create_widgets`: no images,
save and filter buttons disabled, upload and reset buttons enabled (the
reset button is created without `state=tk.DISABLED`). -/
def initState : AppState :=
  { original := none, processed := none, displayed := none,
    saveEnabled := false, resetEnabled := true, filtersEnabled := false,
    uploadEnabled := true, status := .idle }

/-- The spec's data-model invariant: whenever both image handles are set,
the processed image is the original itself (a plain copy) or the result of
exactly one filter transform applied to the current original. -/
def Inv (s : AppState) : Prop :=
  ∀ o p, s.original = some o → s.processed = some p →
    p = o ∨ ∃ f, filterTransform f o = .ok p

/-- A small concrete RGB image used by witnesses and counterexamples. -/
def imgA : Img :=
  ⟨.RGB, 3, 3, fun _ _ => ⟨100, 150, 200⟩⟩

/-- A second, distinguishable concrete image (different dimensions). -/
def imgB : Img :=
  ⟨.RGB, 1, 1, fun _ _ => ⟨0, 0, 0⟩⟩

/-- An environment where every library call succeeds. -/
def env0 : Env :=
  ⟨false, false, false, 800, 500⟩

/-- An environment where the preview-rendering call raises. -/
def envDisplayFail : Env :=
  ⟨false, true, false, 800, 500⟩

/-- An environment where the transform call raises. -/
def envTransformFail : Env :=
  ⟨true, false, false, 800, 500⟩

/-- The lazily opened handle of a header-valid but undecodable file: the
header reports a 7×7 RGB image; its pixel data never decodes. -/
def brokenImg : Img :=
  ⟨.RGB, 7, 7, fun _ _ => ⟨0, 0, 0⟩⟩

/-- A loaded session: original `imgA`, processed currently `imgB`. -/
def loadedState : AppState :=
  { original := some imgA, processed := some imgB, displayed := none,
    saveEnabled := true, resetEnabled := true, filtersEnabled := true,
    uploadEnabled := true, status := .loaded }

/-- A freshly loaded session: processed is the plain copy of the
original. -/
def selfLoadedState : AppState :=
  { original := some imgA, processed := some imgA, displayed := none,
    saveEnabled := true, resetEnabled := true, filtersEnabled := true,
    uploadEnabled := true, status := .loaded }

/-! ### Helper lemmas -/

lemma orFail_ok {α : Type} {b : Bool} {r : Except PilErr α} {a : α}
    (h : orFail b r = .ok a) : r = .ok a := by
  cases b with
  | true => simp [orFail] at h
  | false => simpa [orFail] using h

lemma save_image_fields (s : AppState) (chosen : Bool) (env : Env) :
    (save_image s chosen env).1.original = s.original ∧
    (save_image s chosen env).1.processed = s.processed := by
  unfold save_image
  cases hsrc : s.processed <;> by_cases hc : chosen <;>
    by_cases hs : env.saveFails <;> simp [hsrc, hc, hs]

lemma pyInt_of_nonneg {q : ℚ} (h : 0 ≤ q) : pyInt q = ⌊q⌋ := if_pos h

lemma pyInt_of_neg {q : ℚ} (h : q < 0) : pyInt q = ⌈q⌉ := if_neg (not_le.mpr h)

lemma pyInt_le_of_le {q : ℚ} {b : Int} (h : q ≤ (b : ℚ)) : pyInt q ≤ b := by
  unfold pyInt
  split
  · have := Int.floor_le_floor h
    rwa [Int.floor_intCast] at this
  · exact Int.ceil_le.mpr h

lemma display_scale_le_one (cw ch w h : Nat) : display_scale cw ch w h ≤ 1 :=
  min_le_right _ _

lemma display_scale_le_scale_w (cw ch w h : Nat) :
    display_scale cw ch w h ≤ scale_w (effCanvasW cw) w :=
  le_trans (min_le_left _ _) (min_le_left _ _)

lemma display_scale_le_scale_h (cw ch w h : Nat) :
    display_scale cw ch w h ≤ scale_h (effCanvasH ch) h :=
  le_trans (min_le_left _ _) (min_le_right _ _)

/-- Rounding both dimensions with a common truncated scale changes the
aspect ratio by less than one pixel worth of cross product. -/
lemma pyInt_aspect (w h q : ℚ) (hw : 0 < w) (hh : 0 < h) :
    |(pyInt (w * q) : ℚ) * h - (pyInt (h * q) : ℚ) * w| ≤ max w h := by
  rcases le_or_lt 0 q with hq | hq
  · have haw : 0 ≤ w * q := mul_nonneg hw.le hq
    have hah : 0 ≤ h * q := mul_nonneg hh.le hq
    rw [pyInt_of_nonneg haw, pyInt_of_nonneg hah, abs_le]
    have f1 : ((⌊w * q⌋ : Int) : ℚ) ≤ w * q := Int.floor_le _
    have f2 : w * q - 1 < ((⌊w * q⌋ : Int) : ℚ) := Int.sub_one_lt_floor _
    have f3 : ((⌊h * q⌋ : Int) : ℚ) ≤ h * q := Int.floor_le _
    have f4 : h * q - 1 < ((⌊h * q⌋ : Int) : ℚ) := Int.sub_one_lt_floor _
    have key : w * q * h = h * q * w := by ring
    constructor
    · have e1 : (w * q - 1) * h ≤ ((⌊w * q⌋ : Int) : ℚ) * h :=
        mul_le_mul_of_nonneg_right f2.le hh.le
      have e2 : ((⌊h * q⌋ : Int) : ℚ) * w ≤ h * q * w :=
        mul_le_mul_of_nonneg_right f3 hw.le
      have hm : -(max w h) ≤ -h := neg_le_neg (le_max_right w h)
      nlinarith [e1, e2, key, hm]
    · have e3 : ((⌊w * q⌋ : Int) : ℚ) * h ≤ w * q * h :=
        mul_le_mul_of_nonneg_right f1 hh.le
      have e4 : (h * q - 1) * w ≤ ((⌊h * q⌋ : Int) : ℚ) * w :=
        mul_le_mul_of_nonneg_right f4.le hw.le
      have hm : w ≤ max w h := le_max_left w h
      nlinarith [e3, e4, key, hm]
  · have haw : w * q < 0 := mul_neg_of_pos_of_neg hw hq
    have hah : h * q < 0 := mul_neg_of_pos_of_neg hh hq
    rw [pyInt_of_neg haw, pyInt_of_neg hah, abs_le]
    have f1 : w * q ≤ ((⌈w * q⌉ : Int) : ℚ) := Int.le_ceil _
    have f2 : ((⌈w * q⌉ : Int) : ℚ) < w * q + 1 := Int.ceil_lt_add_one _
    have f3 : h * q ≤ ((⌈h * q⌉ : Int) : ℚ) := Int.le_ceil _
    have f4 : ((⌈h * q⌉ : Int) : ℚ) < h * q + 1 := Int.ceil_lt_add_one _
    have key : w * q * h = h * q * w := by ring
    constructor
    · have e1 : w * q * h ≤ ((⌈w * q⌉ : Int) : ℚ) * h :=
        mul_le_mul_of_nonneg_right f1 hh.le
      have e2 : ((⌈h * q⌉ : Int) : ℚ) * w ≤ (h * q + 1) * w :=
        mul_le_mul_of_nonneg_right f4.le hw.le
      have hm : -(max w h) ≤ -w := neg_le_neg (le_max_left w h)
      nlinarith [e1, e2, key, hm]
    · have e3 : ((⌈w * q⌉ : Int) : ℚ) * h ≤ (w * q + 1) * h :=
        mul_le_mul_of_nonneg_right f2.le hh.le
      have e4 : h * q * w ≤ ((⌈h * q⌉ : Int) : ℚ) * w :=
        mul_le_mul_of_nonneg_right f3 hw.le
      have hm : h ≤ max w h := le_max_right w h
      nlinarith [e3, e4, key, hm]

lemma filterApply_width (k : Kernel) (i : Img) :
    (filterApply k i).width = i.width := by
  rcases i with ⟨m, w, h, px⟩
  cases m <;> rfl

lemma filterApply_height (k : Kernel) (i : Img) :
    (filterApply k i).height = i.height := by
  rcases i with ⟨m, w, h, px⟩
  cases m <;> rfl

lemma ensureRGB_dims (i : Img) :
    (ensureRGB i).width = i.width ∧ (ensureRGB i).height = i.height := by
  unfold ensureRGB
  split <;> simp [convertRGB]

/-- Every successful filter transform preserves both dimensions. -/
lemma filterTransform_dims
    (f : FilterKind) (o p : Img) (h : filterTransform f o = .ok p) :
    p.width = o.width ∧ p.height = o.height := by
  cases f with
  | bw =>
      simp [filterTransform] at h
      rw [← h]
      exact ⟨rfl, rfl⟩
  | blur =>
      simp only [filterTransform, pilFilter] at h
      split at h
      · exact absurd h (by simp)
      · have h2 := Except.ok.inj h
        rw [← h2]
        exact ⟨filterApply_width _ _, filterApply_height _ _⟩
  | sharpen =>
      simp only [filterTransform, pilFilter] at h
      split at h
      · exact absurd h (by simp)
      · have h2 := Except.ok.inj h
        rw [← h2]
        exact ⟨filterApply_width _ _, filterApply_height _ _⟩
  | cartoon =>
      simp [filterTransform, cartoonT, pilFilter, convertRGB] at h
      rw [← h]
      obtain ⟨hw, hh⟩ := ensureRGB_dims o
      constructor
      · show (enhance12 (filterApply EDGE_ENHANCE_MORE
          (convertRGB (quantize64 (ensureRGB o))))).width = o.width
        rw [show (enhance12 (filterApply EDGE_ENHANCE_MORE
          (convertRGB (quantize64 (ensureRGB o))))).width =
          (filterApply EDGE_ENHANCE_MORE
            (convertRGB (quantize64 (ensureRGB o)))).width from rfl,
          filterApply_width]
        exact hw
      · show (enhance12 (filterApply EDGE_ENHANCE_MORE
          (convertRGB (quantize64 (ensureRGB o))))).height = o.height
        rw [show (enhance12 (filterApply EDGE_ENHANCE_MORE
          (convertRGB (quantize64 (ensureRGB o))))).height =
          (filterApply EDGE_ENHANCE_MORE
            (convertRGB (quantize64 (ensureRGB o)))).height from rfl,
          filterApply_height]
        exact hh
  | edge =>
      simp [filterTransform, edgeT, pilFilter, convertL] at h
      rw [← h]
      constructor
      · show (convertRGB (filterApply FIND_EDGES (convertL o))).width = o.width
        rw [show (convertRGB (filterApply FIND_EDGES (convertL o))).width =
          (filterApply FIND_EDGES (convertL o)).width from rfl,
          filterApply_width]
        rfl
      · show (convertRGB (filterApply FIND_EDGES (convertL o))).height =
          o.height
        rw [show (convertRGB (filterApply FIND_EDGES (convertL o))).height =
          (filterApply FIND_EDGES (convertL o)).height from rfl,
          filterApply_height]
        rfl

/-! ### Claim theorems -/

/-- C1 counterexample: from a freshly loaded session (which satisfies the
claimed invariant), attempting to load a header-valid but undecodable file
reassigns the Original Image while the decode failure surfaces only in the
subsequent `copy()` — the Processed Image is left derived from the
previous Original, so it is no longer the current Original transformed by
at most one filter, refuting the claimed "always" invariant. -/
theorem invariant_broken_counterexample :
    Inv selfLoadedState ∧
    ¬ Inv (step selfLoadedState
        (Event.upload (.copyFailure brokenImg)) env0).1 := by
  constructor
  · intro o p ho hp
    exact Or.inl ((Option.some.inj hp).symm.trans (Option.some.inj ho))
  · intro hInv
    have h := hInv brokenImg imgA rfl rfl
    rcases h with h | ⟨f, hf⟩
    · exact absurd (congrArg Img.width h : (3 : Nat) = 7) (by decide)
    · have hw := (filterTransform_dims f brokenImg imgA hf).1
      exact absurd (hw : (3 : Nat) = 7) (by decide)

/-- C1 amended: each of the five filter handlers computes the new Processed
Image from the Original Image only (never from the previous Processed
Image), and every event-loop step — except an upload whose decode fails at
the `copy()` step, which reassigns the Original Image while the failure
surfaces — preserves the invariant that the Processed Image, when present
together with an Original Image, is the Original Image itself (a copy) or
the Original Image transformed by exactly one filter transform. -/
theorem step_preserves_single_filter_invariant
    (s : AppState) (ev : Event) (env : Env) (hev : NotCopyFailure ev)
    (hInv : Inv s) :
    Inv (step s ev env).1 := by
  cases ev with
  | upload choice =>
      cases choice with
      | cancelled => exact hInv
      | openFailure => exact hInv
      | copyFailure broken => exact absurd hev (by simp [NotCopyFailure])
      | decoded img =>
          intro o p ho hp
          by_cases hd : env.displayFails
          · simp [step, upload_image, hd] at ho hp
            exact Or.inl (hp.symm.trans ho)
          · simp [step, upload_image, hd] at ho hp
            exact Or.inl (hp.symm.trans ho)
  | filt f =>
      intro o p ho hp
      cases hsrc : s.original with
      | none => simp [step, filter_handler, hsrc] at ho
      | some o0 =>
          cases hres : orFail env.transformFails (filterTransform f o0) with
          | error e =>
              simp [step, filter_handler, hsrc, hres] at ho hp
              exact hInv o p (by rw [hsrc, ho]) hp
          | ok p0 =>
              by_cases hd : env.displayFails <;>
                simp [step, filter_handler, hsrc, hres, hd] at ho hp
              all_goals
                refine Or.inr ⟨f, ?_⟩
                have hft := orFail_ok hres
                rw [ho, hp] at hft
                exact hft
  | reset =>
      intro o p ho hp
      cases hsrc : s.original with
      | none => simp [step, reset_image, hsrc] at ho
      | some o0 =>
          by_cases hd : env.displayFails <;>
            simp [step, reset_image, hsrc, hd] at ho hp
          all_goals exact Or.inl (hp.symm.trans ho)
  | save chosen =>
      intro o p ho hp
      obtain ⟨h1, h2⟩ := save_image_fields s chosen env
      exact hInv o p (by rw [← h1]; exact ho) (by rw [← h2]; exact hp)

/-- C1 witness: the invariant holds of the initial state and is carried
through a concrete non-copy-failure step. -/
theorem step_preserves_single_filter_invariant_witness :
    NotCopyFailure Event.reset ∧ Inv initState ∧
    Inv (step initState Event.reset env0).1 :=
  ⟨by trivial, by intro o p ho hp; simp [initState] at ho,
   step_preserves_single_filter_invariant initState Event.reset env0
     (by trivial) (by intro o p ho hp; simp [initState] at ho)⟩

/-- C2 counterexample: in a loaded session where the preview-rendering call
inside the try block raises (after the assignment to the Processed Image),
the handler reports a modal error dialog, yet the Processed Image does not
retain its pre-invocation value — refuting the claim that any exception in
the try block leaves the Processed Image unchanged. -/
theorem filter_error_retention_counterexample :
    ¬ ((filter_handler .blur loadedState envDisplayFail).2 = .errDialog →
       (filter_handler .blur loadedState envDisplayFail).1.processed =
         loadedState.processed) := by
  intro h
  have h2 := h rfl
  have h3 : some (filterApply BLUR imgA) = some imgB := h2
  have h4 : filterApply BLUR imgA = imgB := Option.some.inj h3
  have h5 : (3 : Nat) = 1 := congrArg Img.width h4
  exact absurd h5 (by decide)

/-- C2 amended: when the exception is raised during the transform
computation itself (before the assignment to the Processed Image), the
handler leaves the whole session state exactly as it was and reports the
failure via a modal error dialog; an exception raised later in the try
block (during preview rendering) is also caught and reported, but by then
the Processed Image has already been wholly replaced by the complete new
result — the assignment itself is still all-or-nothing. -/
theorem filter_transform_error_leaves_state
    (s : AppState) (f : FilterKind) (env : Env) (o : Img) (er : PilErr)
    (ho : s.original = some o)
    (he : orFail env.transformFails (filterTransform f o) = .error er) :
    filter_handler f s env = (s, .errDialog) := by
  unfold filter_handler
  simp [ho, he]

/-- C2 witness: a concrete loaded state and an environment whose transform
call raises. -/
theorem filter_transform_error_leaves_state_witness :
    loadedState.original = some imgA ∧
    orFail envTransformFail.transformFails (filterTransform .blur imgA) =
      .error .unexpected ∧
    filter_handler .blur loadedState envTransformFail =
      (loadedState, .errDialog) :=
  ⟨rfl, rfl,
   filter_transform_error_leaves_state loadedState .blur envTransformFail
     imgA .unexpected rfl rfl⟩

/-- C3 counterexample: loading a header-valid but undecodable file over a
loaded session is a decode failure that is caught and reported, yet the
prior session state is not left as it was — `self.original_image` was
reassigned to the new broken handle before the failure surfaced in
`copy()`. -/
theorem upload_decode_failure_counterexample :
    (upload_image loadedState (.copyFailure brokenImg) env0).2 =
      .errDialog ∧
    (upload_image loadedState (.copyFailure brokenImg) env0).1.original ≠
      loadedState.original := by
  refine ⟨rfl, ?_⟩
  intro h
  have h2 : brokenImg = imgA := Option.some.inj h
  exact absurd (congrArg Img.width h2 : (7 : Nat) = 3) (by decide)

/-- C3 amended: a decode failure raised by `Image.open` itself (an
unrecognizable file, e.g. a text file renamed `.png`) leaves all prior
session state exactly as it was and is reported with a modal error dialog,
not a crash.  A decode failure that only surfaces at the `copy()` step of
a header-valid file is likewise caught and reported without crashing, and
the Processed Image, preview, control enablement and status retain their
prior values — but the Original Image has already been reassigned to the
newly opened handle. -/
theorem upload_decode_failure_reported (s : AppState) (env : Env) :
    upload_image s .openFailure env = (s, .errDialog) ∧
    ∀ broken : Img,
      (upload_image s (.copyFailure broken) env).2 = .errDialog ∧
      (upload_image s (.copyFailure broken) env).1.original = some broken ∧
      (upload_image s (.copyFailure broken) env).1.processed =
        s.processed ∧
      (upload_image s (.copyFailure broken) env).1.displayed =
        s.displayed ∧
      (upload_image s (.copyFailure broken) env).1.saveEnabled =
        s.saveEnabled ∧
      (upload_image s (.copyFailure broken) env).1.filtersEnabled =
        s.filtersEnabled ∧
      (upload_image s (.copyFailure broken) env).1.resetEnabled =
        s.resetEnabled ∧
      (upload_image s (.copyFailure broken) env).1.status = s.status :=
  ⟨rfl, fun _ => ⟨rfl, rfl, rfl, rfl, rfl, rfl, rfl, rfl⟩⟩

/-- C4: with an Original Image present and no library failure, the Cartoon
handler stores as Processed Image exactly the pipeline: force 3-channel
RGB, palette-quantize to 64 colors, convert back to 3-channel RGB, apply
the strong edge-enhancement convolution, boost saturation by factor 1.2 —
in that order. -/
theorem apply_cartoon_stage_order (s : AppState) (env : Env) (o : Img)
    (ho : s.original = some o) (ht : env.transformFails = false)
    (hd : env.displayFails = false) :
    (filter_handler .cartoon s env).1.processed =
      some (enhance12 (filterApply EDGE_ENHANCE_MORE
        (convertRGB (quantize64 (ensureRGB o))))) := by
  have hct : cartoonT o = .ok (enhance12 (filterApply EDGE_ENHANCE_MORE
      (convertRGB (quantize64 (ensureRGB o))))) := by
    unfold cartoonT
    simp [pilFilter, convertRGB]
  unfold filter_handler
  simp [ho, ht, hd, orFail, filterTransform, hct]

/-- C4 witness: the cartoon pipeline evaluated on a concrete loaded
session. -/
theorem apply_cartoon_stage_order_witness :
    loadedState.original = some imgA ∧ env0.transformFails = false ∧
    env0.displayFails = false ∧
    (filter_handler .cartoon loadedState env0).1.processed =
      some (enhance12 (filterApply EDGE_ENHANCE_MORE
        (convertRGB (quantize64 (ensureRGB imgA))))) :=
  ⟨rfl, rfl, rfl,
   apply_cartoon_stage_order loadedState env0 imgA rfl rfl rfl⟩

/-- C5: with an Original Image present, Reset replaces the Processed Image
by a copy pixel-identical to the Original Image (in the value semantics of
the model, the original itself), leaves the Original Image in place, and
re-renders the original as the preview — after any prior sequence of
filter applications, since the session state `s` is arbitrary. -/
theorem reset_restores_original (s : AppState) (env : Env) (o : Img)
    (ho : s.original = some o) (hd : env.displayFails = false) :
    (reset_image s env).1.processed = some o ∧
    (reset_image s env).1.original = some o ∧
    (reset_image s env).1.displayed =
      some (display_image_on_canvas o env) := by
  unfold reset_image
  simp [ho, hd]

/-- C5 witness: reset on a concrete loaded session whose processed image
differs from the original. -/
theorem reset_restores_original_witness :
    loadedState.original = some imgA ∧ env0.displayFails = false ∧
    ((reset_image loadedState env0).1.processed = some imgA ∧
     (reset_image loadedState env0).1.original = some imgA ∧
     (reset_image loadedState env0).1.displayed =
       some (display_image_on_canvas imgA env0)) :=
  ⟨rfl, rfl, reset_restores_original loadedState env0 imgA rfl rfl⟩

/-- C6: the preview renderer computes the single uniform scale factor
min(width-fit, height-fit, 1.0) and applies it to both dimensions, so the
preview never upscales (each rendered dimension is at most the source
dimension), both rendered dimensions stay within the effective canvas
bounds, and the aspect ratio is preserved within rounding (the cross
product of the rendered and source dimensions differs by at most
max(width, height)). -/
theorem preview_scale_contract (cw ch w h : Nat) (hw : 1 ≤ w) (hh : 1 ≤ h) :
    display_scale cw ch w h =
      min (min (scale_w (effCanvasW cw) w) (scale_h (effCanvasH ch) h)) 1 ∧
    display_scale cw ch w h ≤ 1 ∧
    new_width cw ch w h = pyInt ((w : ℚ) * display_scale cw ch w h) ∧
    new_height cw ch w h = pyInt ((h : ℚ) * display_scale cw ch w h) ∧
    new_width cw ch w h ≤ (w : Int) ∧ new_height cw ch w h ≤ (h : Int) ∧
    new_width cw ch w h ≤ (effCanvasW cw : Int) ∧
    new_height cw ch w h ≤ (effCanvasH ch : Int) ∧
    |new_width cw ch w h * (h : Int) - new_height cw ch w h * (w : Int)| ≤
      max (w : Int) (h : Int) := by
  have hw0 : (0 : ℚ) < (w : ℚ) := by exact_mod_cast hw
  have hh0 : (0 : ℚ) < (h : ℚ) := by exact_mod_cast hh
  have hq1 : display_scale cw ch w h ≤ 1 := display_scale_le_one cw ch w h
  refine ⟨rfl, hq1, rfl, rfl, ?_, ?_, ?_, ?_, ?_⟩
  · refine pyInt_le_of_le ?_
    push_cast
    nlinarith [hq1, hw0]
  · refine pyInt_le_of_le ?_
    push_cast
    nlinarith [hq1, hh0]
  · refine pyInt_le_of_le ?_
    push_cast
    have h1 := mul_le_mul_of_nonneg_left
      (display_scale_le_scale_w cw ch w h) hw0.le
    have h2 : (w : ℚ) * scale_w (effCanvasW cw) w =
        (effCanvasW cw : ℚ) - 20 := by
      unfold scale_w
      field_simp
    linarith [h1, h2.le, h2.ge]
  · refine pyInt_le_of_le ?_
    push_cast
    have h1 := mul_le_mul_of_nonneg_left
      (display_scale_le_scale_h cw ch w h) hh0.le
    have h2 : (h : ℚ) * scale_h (effCanvasH ch) h =
        (effCanvasH ch : ℚ) - 20 := by
      unfold scale_h
      field_simp
    linarith [h1, h2.le, h2.ge]
  · rw [← @Int.cast_le ℚ]
    push_cast
    unfold new_width new_height
    exact pyInt_aspect (w : ℚ) (h : ℚ) (display_scale cw ch w h) hw0 hh0

/-- C6 witness: the contract applied to a 1000×800 image on the default
800×500 canvas. -/
theorem preview_scale_contract_witness :
    (1 ≤ 1000 ∧ 1 ≤ 800) ∧ new_width 800 500 1000 800 ≤ (1000 : Int) :=
  ⟨by decide,
   (preview_scale_contract 800 500 1000 800 (by decide) (by decide)).2.2.2.2.1⟩

/-- C7 counterexample: a 790×100 image is strictly smaller than the 800×500
canvas in both dimensions, yet the renderer does not render it 1:1 — the
20-pixel fit margin shrinks it to width 780. -/
theorem preview_one_to_one_counterexample :
    790 < 800 ∧ 100 < 500 ∧ new_width 800 500 790 100 ≠ 790 := by
  refine ⟨by norm_num, by norm_num, ?_⟩
  have h1 : display_scale 800 500 790 100 = 78 / 79 := by
    unfold display_scale scale_w scale_h effCanvasW effCanvasH
    norm_num [min_def]
  have h2 : new_width 800 500 790 100 = 780 := by
    unfold new_width pyInt
    rw [h1]
    norm_num
  rw [h2]
  norm_num

/-- C7 amended: an image that fits inside the effective canvas minus the
20-pixel margin in both dimensions is rendered at 1:1 — the rendered
width and height equal the source width and height. -/
theorem preview_one_to_one_within_margin (cw ch w h : Nat)
    (hw : 1 ≤ w) (hh : 1 ≤ h)
    (hwc : w + 20 ≤ effCanvasW cw) (hhc : h + 20 ≤ effCanvasH ch) :
    new_width cw ch w h = (w : Int) ∧ new_height cw ch w h = (h : Int) := by
  have hw0 : (0 : ℚ) < (w : ℚ) := by exact_mod_cast hw
  have hh0 : (0 : ℚ) < (h : ℚ) := by exact_mod_cast hh
  have hsw : 1 ≤ scale_w (effCanvasW cw) w := by
    unfold scale_w
    rw [le_div_iff₀ hw0]
    have : (w : ℚ) + 20 ≤ (effCanvasW cw : ℚ) := by exact_mod_cast hwc
    linarith
  have hsh : 1 ≤ scale_h (effCanvasH ch) h := by
    unfold scale_h
    rw [le_div_iff₀ hh0]
    have : (h : ℚ) + 20 ≤ (effCanvasH ch : ℚ) := by exact_mod_cast hhc
    linarith
  have hq : display_scale cw ch w h = 1 := by
    unfold display_scale
    exact min_eq_right (le_min hsw hsh)
  constructor
  · show pyInt ((w : ℚ) * display_scale cw ch w h) = (w : Int)
    rw [hq, mul_one, pyInt_of_nonneg hw0.le]
    exact_mod_cast Int.floor_natCast w
  · show pyInt ((h : ℚ) * display_scale cw ch w h) = (h : Int)
    rw [hq, mul_one, pyInt_of_nonneg hh0.le]
    exact_mod_cast Int.floor_natCast h

/-- C7 witness: a 100×50 image on the default 800×500 canvas renders
at exactly 100×50. -/
theorem preview_one_to_one_within_margin_witness :
    (1 ≤ 100 ∧ 1 ≤ 50 ∧ 100 + 20 ≤ effCanvasW 800 ∧
     50 + 20 ≤ effCanvasH 500) ∧
    new_width 800 500 100 50 = (100 : Int) :=
  ⟨by decide,
   (preview_one_to_one_within_margin 800 500 100 50 (by decide) (by decide)
     (by decide) (by decide)).1⟩

/-- C8: the Grayscale handler's transform and the Edge Detection handler's
transform (which both handlers store into the Processed Image, as the
first two conjuncts record) produce images with equal R, G and B values at
every pixel. -/
theorem grayscale_and_edge_channels_equal (o : Img) (x y : Nat) :
    filterTransform .bw o = .ok (bw_result o) ∧
    filterTransform .edge o = .ok (edge_result o) ∧
    ((bw_result o).px x y).g = ((bw_result o).px x y).r ∧
    ((bw_result o).px x y).b = ((bw_result o).px x y).r ∧
    ((edge_result o).px x y).g = ((edge_result o).px x y).r ∧
    ((edge_result o).px x y).b = ((edge_result o).px x y).r := by
  refine ⟨rfl, ?_, rfl, rfl, ?_, ?_⟩
  · simp [filterTransform, edgeT, pilFilter, convertL, edge_result]
  · simp only [edge_result, convertRGB, filterApply, convertL]
    split <;> rfl
  · simp only [edge_result, convertRGB, filterApply, convertL]
    split <;> rfl

/-- C9 counterexample: in the Empty state established by `create_widgets`
the Reset button is enabled (it is created without `state=tk.DISABLED`),
refuting the claim that save, reset and the filter controls are all
disabled before the first load. -/
theorem initial_controls_counterexample :
    initState.resetEnabled = true ∧
    ¬ (initState.saveEnabled = false ∧ initState.resetEnabled = false ∧
       initState.filtersEnabled = false) := by
  constructor
  · rfl
  · intro h
    exact absurd h.2.1 (by simp [initState])

/-- C9 amended: in the Empty state the upload and reset controls are
enabled and the save and filter controls are disabled (reset merely no-ops
without an image); after the first successful image load all controls are
enabled. -/
theorem control_enablement_lifecycle :
    initState.uploadEnabled = true ∧ initState.saveEnabled = false ∧
    initState.filtersEnabled = false ∧ initState.resetEnabled = true ∧
    ∀ (img : Img) (env : Env),
      (upload_image initState (.decoded img) env).1.uploadEnabled = true ∧
      (upload_image initState (.decoded img) env).1.saveEnabled = true ∧
      (upload_image initState (.decoded img) env).1.filtersEnabled = true ∧
      (upload_image initState (.decoded img) env).1.resetEnabled = true := by
  refine ⟨rfl, rfl, rfl, rfl, ?_⟩
  intro img env
  unfold upload_image
  by_cases hd : env.displayFails <;> simp [hd, initState]

/-- C10: whenever one of the five filter handlers' transforms succeeds,
the new Processed Image has exactly the width and height of the Original
Image it was computed from. -/
theorem filter_transforms_preserve_dimensions
    (f : FilterKind) (o p : Img) (h : filterTransform f o = .ok p) :
    p.width = o.width ∧ p.height = o.height :=
  filterTransform_dims f o p h

/-- C10 witness: the grayscale transform on a concrete image keeps its
1×1 dimensions. -/
theorem filter_transforms_preserve_dimensions_witness :
    filterTransform .bw imgB = .ok (bw_result imgB) ∧
    ((bw_result imgB).width = imgB.width ∧
     (bw_result imgB).height = imgB.height) :=
  ⟨rfl, filter_transforms_preserve_dimensions .bw imgB (bw_result imgB) rfl⟩

end ImageFilterApp
